import Mathlib

/-!
Verification of the push-based event-stream core (Observer / Observable)
of this repository, shallowly embedded in Lean.

The embedding follows `src/newIndex.ts` (the second source file contains the
same `Observer`/`Observable` classes).  Handler callbacks and the teardown
action are external side-effecting functions; the core only decides *whether*
to invoke them.  We therefore model a handler set by presence flags and record
every invocation the core performs in an event trace, in order.  State-mutating
methods become pure functions returning the new state paired with the trace of
invocations they performed.
-/

/-- One invocation performed by the core: a handler callback (with the value it
was passed) or the registered teardown action. -/
inductive Ev (T E : Type) where
  | onNext (v : T)
  | onError (e : E)
  | onComplete
  | teardown
deriving DecidableEq, Repr

/-- A signal a producer sends to its observer, mirroring the three methods
`next` / `error` / `complete` a producer may call. -/
inductive Sig (T E : Type) where
  | next (v : T)
  | error (e : E)
  | complete
deriving DecidableEq, Repr

/-- The `Handler<T>` record of optional callbacks, modelled by presence flags
(the callback bodies are external and out of scope). -/
structure Handlers where
  hasNext : Bool
  hasError : Bool
  hasComplete : Bool
deriving DecidableEq, Repr

/-- The empty handler set `{}`: no callback present. -/
def emptyHandlers : Handlers := ⟨false, false, false⟩

variable {T E : Type}

/-- State of `class Observer<T>`: the fixed handler set, the `isUnsubscribed`
flag, and whether a teardown action is registered in the `_unsubscribe` slot
(in the source the slot holds the function itself; only its presence matters
to the core's control flow). -/
structure Observer (T E : Type) where
  handlers : Handlers
  isUnsubscribed : Bool
  hasTeardown : Bool
deriving DecidableEq, Repr

/-- `new Observer(handlers)`: `isUnsubscribed` starts `false`, the
`_unsubscribe` slot starts empty. -/
def Observer.mkNew (handlers : Handlers) : Observer T E :=
  ⟨handlers, false, false⟩

/-- `unsubscribe()`: sets `isUnsubscribed = true` and, if a teardown is
registered, invokes it.  Note the source has no guard on the flag: the
teardown is invoked on every call on which it is registered. -/
def Observer.unsubscribe (o : Observer T E) : Observer T E × List (Ev T E) :=
  ({ o with isUnsubscribed := true },
    if o.hasTeardown then [Ev.teardown] else [])

/-- `next(value)`: invokes the `next` handler iff it is present and the
observer is not unsubscribed.  No state change. -/
def Observer.next (o : Observer T E) (v : T) : Observer T E × List (Ev T E) :=
  if o.handlers.hasNext && !o.isUnsubscribed then (o, [Ev.onNext v]) else (o, [])

/-- `error(error)`: if not unsubscribed, invokes the `error` handler when
present, then calls `unsubscribe()`. -/
def Observer.error (o : Observer T E) (e : E) : Observer T E × List (Ev T E) :=
  if !o.isUnsubscribed then
    ((o.unsubscribe).1,
      (if o.handlers.hasError then [Ev.onError e] else []) ++ (o.unsubscribe).2)
  else (o, [])

/-- `complete()`: if not unsubscribed, invokes the `complete` handler when
present, then calls `unsubscribe()`. -/
def Observer.complete (o : Observer T E) : Observer T E × List (Ev T E) :=
  if !o.isUnsubscribed then
    ((o.unsubscribe).1,
      (if o.handlers.hasComplete then [Ev.onComplete] else []) ++ (o.unsubscribe).2)
  else (o, [])

/-- Dispatch one producer signal to the corresponding observer method. -/
def Observer.signal (o : Observer T E) : Sig T E → Observer T E × List (Ev T E)
  | Sig.next v => o.next v
  | Sig.error e => o.error e
  | Sig.complete => o.complete

/-- Run a sequence of producer signals against an observer, accumulating the
trace of invocations in order. -/
def runSigs (o : Observer T E) : List (Sig T E) → Observer T E × List (Ev T E)
  | [] => (o, [])
  | s :: rest =>
    let p := o.signal s
    let q := runSigs p.1 rest
    (q.1, p.2 ++ q.2)

/-- `class Observable<T>` holds a single producer function `_subscribe`.
Every producer in this repository (the one built by `from` and the
`erroringObservable` producer) synchronously sends a fixed sequence of
`next`/`error`/`complete` signals to its observer and optionally returns a
teardown action, so the producer is modelled by that data. -/
structure Observable (T E : Type) where
  emits : List (Sig T E)
  returnsTeardown : Bool
deriving DecidableEq, Repr

/-- `Observable.from(values)`: the producer sends `next` for every element of
`values` in order, then `complete()`, and returns a teardown action (the
logging closure). -/
def Observable.fromList (values : List T) : Observable T E :=
  ⟨values.map Sig.next ++ [Sig.complete], true⟩

/-- `subscribe(handlers)`: builds a fresh observer, runs the producer against
it, and only afterwards, if the producer returned a teardown action, stores it
in the observer's `_unsubscribe` slot.  The returned observer is the state the
subscription handle's `unsubscribe()` closes over. -/
def Observable.subscribe (obs : Observable T E) (handlers : Handlers) :
    Observer T E × List (Ev T E) :=
  let p := runSigs (Observer.mkNew handlers) obs.emits
  (if obs.returnsTeardown then { p.1 with hasTeardown := true } else p.1, p.2)

/-- Calling the subscription handle's `unsubscribe()` `n` times in a row. -/
def unsubN (o : Observer T E) : Nat → Observer T E × List (Ev T E)
  | 0 => (o, [])
  | n + 1 =>
    let p := o.unsubscribe
    let q := unsubN p.1 n
    (q.1, p.2 ++ q.2)

/-- Is this event a teardown invocation? -/
def Ev.isTeardown : Ev T E → Bool
  | Ev.teardown => true
  | _ => false

/-- Is this event a handler-callback invocation? -/
def Ev.isHandler : Ev T E → Bool
  | Ev.teardown => false
  | _ => true

/-- Number of teardown invocations in a trace. -/
def countTeardown (l : List (Ev T E)) : Nat :=
  (l.filter Ev.isTeardown).length

/-- Does this signal trigger the terminal transition? -/
def Sig.isTerminal : Sig T E → Bool
  | Sig.next _ => false
  | _ => true

/-- One operation a caller or producer can perform on an observer (the four
public methods). -/
inductive Op (T E : Type) where
  | next (v : T)
  | error (e : E)
  | complete
  | unsub
deriving DecidableEq, Repr

/-- Apply one operation to an observer. -/
def Observer.applyOp (o : Observer T E) : Op T E → Observer T E × List (Ev T E)
  | Op.next v => o.next v
  | Op.error e => o.error e
  | Op.complete => o.complete
  | Op.unsub => o.unsubscribe

/-- The value of `isUnsubscribed` after each operation of a run. -/
def flagTrace (o : Observer T E) : List (Op T E) → List Bool
  | [] => []
  | op :: rest =>
    let o1 := (o.applyOp op).1
    o1.isUnsubscribed :: flagTrace o1 rest

/-- Number of `false` → `true` transitions in a flag history that starts at
the given previous value. -/
def countFlips : Bool → List Bool → Nat
  | _, [] => 0
  | prev, b :: rest => (if !prev && b then 1 else 0) + countFlips b rest

/-- Two subscriptions on the same observable, each with its own observer. -/
structure TwoSubs (T E : Type) where
  o1 : Observer T E
  o2 : Observer T E
deriving DecidableEq, Repr

/-- Two successive `subscribe` calls on one observable: each builds its own
observer and receives its own trace. -/
def Observable.subscribeTwo (obs : Observable T E) (h1 h2 : Handlers) :
    TwoSubs T E × List (Ev T E) × List (Ev T E) :=
  let p1 := obs.subscribe h1
  let p2 := obs.subscribe h2
  (⟨p1.1, p2.1⟩, p1.2, p2.2)

/-- Unsubscribe the first of the two subscriptions. -/
def TwoSubs.unsub1 (w : TwoSubs T E) : TwoSubs T E × List (Ev T E) :=
  let p := w.o1.unsubscribe
  (⟨p.1, w.o2⟩, p.2)

/-! ### Basic lemmas about single methods -/

/-- `next` never changes the observer state. -/
theorem next_fst (o : Observer T E) (v : T) : (o.next v).1 = o := by
  unfold Observer.next; split <;> rfl

/-- On an unsubscribed observer, `next` performs nothing. -/
theorem next_terminated (o : Observer T E) (v : T) (h : o.isUnsubscribed = true) :
    o.next v = (o, []) := by
  simp [Observer.next, h]

/-- On an unsubscribed observer, `error` performs nothing. -/
theorem error_terminated (o : Observer T E) (e : E) (h : o.isUnsubscribed = true) :
    o.error e = (o, []) := by
  simp [Observer.error, h]

/-- On an unsubscribed observer, `complete` performs nothing. -/
theorem complete_terminated (o : Observer T E) (h : o.isUnsubscribed = true) :
    o.complete = (o, []) := by
  simp [Observer.complete, h]

/-- On an unsubscribed observer, any producer signal performs nothing. -/
theorem signal_terminated (o : Observer T E) (s : Sig T E)
    (h : o.isUnsubscribed = true) : o.signal s = (o, []) := by
  cases s <;>
    simp [Observer.signal, next_terminated, error_terminated, complete_terminated, h]

/-- On an unsubscribed observer, any sequence of producer signals performs
nothing and leaves the state unchanged. -/
theorem runSigs_terminated (o : Observer T E) (sigs : List (Sig T E))
    (h : o.isUnsubscribed = true) : runSigs o sigs = (o, []) := by
  induction sigs with
  | nil => rfl
  | cons s rest ih => simp [runSigs, signal_terminated o s h, ih]

/-- `error` always leaves the observer unsubscribed. -/
theorem error_flag (o : Observer T E) (e : E) :
    (o.error e).1.isUnsubscribed = true := by
  by_cases h : o.isUnsubscribed <;>
    simp [Observer.error, Observer.unsubscribe, h]

/-- `complete` always leaves the observer unsubscribed. -/
theorem complete_flag (o : Observer T E) :
    (o.complete).1.isUnsubscribed = true := by
  by_cases h : o.isUnsubscribed <;>
    simp [Observer.complete, Observer.unsubscribe, h]

/-- One signal leaves the flag set iff it was set or the signal is terminal. -/
theorem signal_flag (o : Observer T E) (s : Sig T E) :
    (o.signal s).1.isUnsubscribed = (o.isUnsubscribed || s.isTerminal) := by
  cases s <;> by_cases h : o.isUnsubscribed <;>
    simp [Observer.signal, next_fst, Observer.error, Observer.complete,
      Observer.unsubscribe, Sig.isTerminal, h]

/-- After a signal run, the flag is set iff it was set or some signal of the
run is terminal. -/
theorem runSigs_flag (sigs : List (Sig T E)) (o : Observer T E) :
    (runSigs o sigs).1.isUnsubscribed = (o.isUnsubscribed || sigs.any Sig.isTerminal) := by
  induction sigs generalizing o with
  | nil => simp [runSigs]
  | cons s rest ih => simp [runSigs, ih, signal_flag, Bool.or_assoc]

/-- A signal never changes the handler set. -/
theorem signal_handlers (o : Observer T E) (s : Sig T E) :
    (o.signal s).1.handlers = o.handlers := by
  cases s <;> by_cases h : o.isUnsubscribed <;>
    simp [Observer.signal, next_fst, Observer.error, Observer.complete,
      Observer.unsubscribe, h]

/-- A signal never changes the teardown slot. -/
theorem signal_hasTeardown (o : Observer T E) (s : Sig T E) :
    (o.signal s).1.hasTeardown = o.hasTeardown := by
  cases s <;> by_cases h : o.isUnsubscribed <;>
    simp [Observer.signal, next_fst, Observer.error, Observer.complete,
      Observer.unsubscribe, h]

/-- A signal run never changes the handler set or the teardown slot. -/
theorem runSigs_preserves (sigs : List (Sig T E)) (o : Observer T E) :
    (runSigs o sigs).1.handlers = o.handlers ∧
      (runSigs o sigs).1.hasTeardown = o.hasTeardown := by
  induction sigs generalizing o with
  | nil => exact ⟨rfl, rfl⟩
  | cons s rest ih =>
    simp only [runSigs]
    exact ⟨((ih _).1).trans (signal_handlers o s),
      ((ih _).2).trans (signal_hasTeardown o s)⟩

/-- Signal runs split over list append. -/
theorem runSigs_append (l1 l2 : List (Sig T E)) (o : Observer T E) :
    runSigs o (l1 ++ l2) =
      ((runSigs (runSigs o l1).1 l2).1,
        (runSigs o l1).2 ++ (runSigs (runSigs o l1).1 l2).2) := by
  induction l1 generalizing o with
  | nil => simp [runSigs]
  | cons s rest ih => simp [runSigs, ih, List.append_assoc]

/-- With no `next` handler, `next` performs nothing. -/
theorem next_no_handler (o : Observer T E) (v : T)
    (h : o.handlers.hasNext = false) : o.next v = (o, []) := by
  simp [Observer.next, h]

/-- With the empty handler set and an empty teardown slot, a signal performs
no invocation at all. -/
theorem signal_silent (o : Observer T E) (s : Sig T E)
    (hh : o.handlers = emptyHandlers) (ht : o.hasTeardown = false) :
    (o.signal s).2 = [] := by
  cases s <;> by_cases hf : o.isUnsubscribed <;>
    simp [Observer.signal, Observer.next, Observer.error, Observer.complete,
      Observer.unsubscribe, emptyHandlers, hh, ht, hf]

/-- With the empty handler set and an empty teardown slot, a signal run
performs no invocation at all. -/
theorem runSigs_silent (sigs : List (Sig T E)) (o : Observer T E)
    (hh : o.handlers = emptyHandlers) (ht : o.hasTeardown = false) :
    (runSigs o sigs).2 = [] := by
  induction sigs generalizing o with
  | nil => rfl
  | cons s rest ih =>
    simp [runSigs, signal_silent o s hh ht,
      ih _ ((signal_handlers o s).trans hh) ((signal_hasTeardown o s).trans ht)]

/-- With an empty teardown slot, a signal never invokes a teardown. -/
theorem signal_no_teardown (o : Observer T E) (s : Sig T E)
    (ht : o.hasTeardown = false) : ((o.signal s).2.filter Ev.isTeardown) = [] := by
  cases s <;> by_cases hf : o.isUnsubscribed <;>
    by_cases hn : o.handlers.hasNext <;>
    by_cases he : o.handlers.hasError <;>
    by_cases hc : o.handlers.hasComplete <;>
    simp [Observer.signal, Observer.next, Observer.error, Observer.complete,
      Observer.unsubscribe, Ev.isTeardown, ht, hf, hn, he, hc]

/-- With an empty teardown slot, a signal run never invokes a teardown. -/
theorem runSigs_no_teardown (sigs : List (Sig T E)) (o : Observer T E)
    (ht : o.hasTeardown = false) :
    ((runSigs o sigs).2.filter Ev.isTeardown) = [] := by
  induction sigs generalizing o with
  | nil => rfl
  | cons s rest ih =>
    simp [runSigs, List.filter_append, signal_no_teardown o s ht,
      ih _ ((signal_hasTeardown o s).trans ht)]

/-- A live observer with a `next` handler delivers a list of `next` signals
one-to-one and keeps its state. -/
theorem runSigs_nexts (vs : List T) (o : Observer T E)
    (hn : o.handlers.hasNext = true) (hf : o.isUnsubscribed = false) :
    runSigs o (vs.map Sig.next) = (o, vs.map Ev.onNext) := by
  induction vs with
  | nil => rfl
  | cons v rest ih =>
    simp [runSigs, Observer.signal, Observer.next, hn, hf, ih]

/-- `unsubscribe` keeps the teardown slot. -/
theorem unsubscribe_hasTeardown (o : Observer T E) :
    (o.unsubscribe).1.hasTeardown = o.hasTeardown := rfl

/-- Repeated `unsubscribe` calls invoke the registered teardown once per
call: `n` calls give `n` invocations (none when no teardown is registered). -/
theorem unsubN_teardown_count (n : Nat) (o : Observer T E) :
    countTeardown (unsubN o n).2 = if o.hasTeardown then n else 0 := by
  induction n generalizing o with
  | zero => by_cases h : o.hasTeardown <;> simp [unsubN, countTeardown, h]
  | succ m ih =>
    have h2 := ih ({ o with isUnsubscribed := true } : Observer T E)
    simp only [unsubN, countTeardown, Observer.unsubscribe, List.filter_append,
      List.length_append] at h2 ⊢
    by_cases h : o.hasTeardown
    · simp [h, Ev.isTeardown] at h2 ⊢
      omega
    · simpa [h, Ev.isTeardown] using h2

/-- After at least one `unsubscribe` call, the flag is set. -/
theorem unsubN_flag_aux (n : Nat) (o : Observer T E)
    (h : o.isUnsubscribed = true) : (unsubN o n).1.isUnsubscribed = true := by
  induction n generalizing o with
  | zero => exact h
  | succ m ih => simp [unsubN]; exact ih _ rfl

/-- `n ≥ 1` calls of `unsubscribe` leave the flag set. -/
theorem unsubN_flag (n : Nat) (o : Observer T E) (h : 1 ≤ n) :
    (unsubN o n).1.isUnsubscribed = true := by
  cases n with
  | zero => omega
  | succ m => simp [unsubN]; exact unsubN_flag_aux m _ rfl

/-- Once the flag is set, no operation clears it. -/
theorem applyOp_flag_mono (o : Observer T E) (op : Op T E)
    (h : o.isUnsubscribed = true) : (o.applyOp op).1.isUnsubscribed = true := by
  cases op <;>
    simp [Observer.applyOp, Observer.next, Observer.error, Observer.complete,
      Observer.unsubscribe, h]

/-- From a set flag, the flag history shows no `false` → `true` flip. -/
theorem countFlips_true (ops : List (Op T E)) (o : Observer T E)
    (h : o.isUnsubscribed = true) : countFlips true (flagTrace o ops) = 0 := by
  induction ops generalizing o with
  | nil => rfl
  | cons op rest ih =>
    have h1 := applyOp_flag_mono o op h
    simp [flagTrace, countFlips, h1, ih _ h1]

/-- From a clear flag, the flag history shows at most one `false` → `true`
flip. -/
theorem countFlips_false (ops : List (Op T E)) (o : Observer T E)
    (h : o.isUnsubscribed = false) : countFlips false (flagTrace o ops) ≤ 1 := by
  induction ops generalizing o with
  | nil => simp [flagTrace, countFlips]
  | cons op rest ih =>
    cases h1 : (o.applyOp op).1.isUnsubscribed with
    | false =>
      simp [flagTrace, countFlips, h1]
      exact ih _ h1
    | true =>
      simp [flagTrace, countFlips, h1, countFlips_true rest _ h1]

/-! ### Concrete fixtures -/

/-- All three callbacks present. -/
def allHandlers : Handlers := ⟨true, true, true⟩

/-- The handler set of Scenario A: a `next` callback (`collect`) and a
`complete` callback (`markDone`), no `error` callback. -/
def collectHandlers : Handlers := ⟨true, false, true⟩

/-- The subscription of Scenario A: `Observable.from([1,2,3])` subscribed with
`collect`/`markDone`; first component is the observer state the returned
handle closes over, second the trace of the subscribe call. -/
def demoSub : Observer Nat Nat × List (Ev Nat Nat) :=
  (Observable.fromList [1, 2, 3] : Observable Nat Nat).subscribe collectHandlers

/-- A live observer: all handlers present, not unsubscribed, teardown
registered. -/
def liveObserver : Observer Nat Nat := ⟨allHandlers, false, true⟩

/-! ### The claims -/

/-- C1 fails as stated: on the Scenario A subscription (whose teardown is
registered by `subscribe`), two `unsubscribe()` calls on the handle invoke the
teardown twice — `unsubscribe` has no guard on `isUnsubscribed` before calling
the teardown. -/
theorem unsubscribe_teardown_not_idempotent :
    countTeardown (unsubN demoSub.1 2).2 = 2 ∧
      ¬ countTeardown (unsubN demoSub.1 2).2 ≤ 1 := by decide

/-- C1 (amended): calling `unsubscribe()` `n ≥ 1` times on a subscription
never throws and leaves the observer unsubscribed, but invokes the registered
teardown once per call — `n` times in total, zero when no teardown is
registered — rather than at most once. -/
theorem unsubscribe_invokes_teardown_each_call (o : Observer T E) (n : Nat)
    (hn : 1 ≤ n) :
    countTeardown (unsubN o n).2 = (if o.hasTeardown then n else 0) ∧
      (unsubN o n).1.isUnsubscribed = true :=
  ⟨unsubN_teardown_count n o, unsubN_flag n o hn⟩

/-- Witness for the amended C1 at the Scenario A subscription and `n = 2`. -/
theorem unsubscribe_invokes_teardown_each_call_witness :
    1 ≤ 2 ∧
      (countTeardown (unsubN demoSub.1 2).2 =
          (if demoSub.1.hasTeardown then 2 else 0) ∧
        (unsubN demoSub.1 2).1.isUnsubscribed = true) :=
  ⟨by decide, unsubscribe_invokes_teardown_each_call demoSub.1 2 (by decide)⟩

/-- C2 fails as stated: in Scenario A the subscribe call delivers the values
and the completion but invokes the teardown zero times, not exactly once —
when `complete()` runs, the teardown is not yet registered. -/
theorem scenarioA_teardown_not_invoked :
    countTeardown demoSub.2 = 0 ∧ ¬ countTeardown demoSub.2 = 1 := by decide

/-- C2 (amended): in Scenario A, `collect` is called with `1`, `2`, `3` in
order and `markDone` exactly once after them; the teardown returned by the
producer is not invoked during `subscribe` (the `complete` signal runs before
the teardown is registered); it is invoked exactly once, after `complete`,
when the caller then calls the handle's `unsubscribe()` once. -/
theorem scenarioA_trace :
    demoSub.2 = [Ev.onNext 1, Ev.onNext 2, Ev.onNext 3, Ev.onComplete] ∧
      (demoSub.1.unsubscribe).2 = [Ev.teardown] := by decide

/-- C3: once `error`, `complete` or `unsubscribe` has run, any further
sequence of `next`/`error`/`complete` calls invokes no handler and no
teardown (the trace is empty) and leaves the state unchanged. -/
theorem post_terminal_silence (o : Observer T E) (e : E) (sigs : List (Sig T E)) :
    runSigs (o.error e).1 sigs = ((o.error e).1, []) ∧
      runSigs (o.complete).1 sigs = ((o.complete).1, []) ∧
      runSigs (o.unsubscribe).1 sigs = ((o.unsubscribe).1, []) :=
  ⟨runSigs_terminated _ sigs (error_flag o e),
    runSigs_terminated _ sigs (complete_flag o),
    runSigs_terminated _ sigs rfl⟩

/-- C4: when a producer calls both `error` and `complete` (in either order)
on a live observer, only the first call fires its handler; the second call is
a complete no-op. -/
theorem terminal_signals_mutually_exclusive (o : Observer T E) (e : E)
    (h : o.isUnsubscribed = false) :
    (o.handlers.hasError = true →
        (o.error e).2.filter Ev.isHandler = [Ev.onError e]) ∧
      (o.error e).1.complete = ((o.error e).1, []) ∧
      (o.handlers.hasComplete = true →
        (o.complete).2.filter Ev.isHandler = [Ev.onComplete]) ∧
      (o.complete).1.error e = ((o.complete).1, []) := by
  refine ⟨fun he => ?_, complete_terminated _ (error_flag o e),
    fun hc => ?_, error_terminated _ e (complete_flag o)⟩
  · by_cases ht : o.hasTeardown <;>
      simp [Observer.error, Observer.unsubscribe, Ev.isHandler, h, he, ht]
  · by_cases ht : o.hasTeardown <;>
      simp [Observer.complete, Observer.unsubscribe, Ev.isHandler, h, hc, ht]

/-- Witness for C4 at a live observer with all handlers and a registered
teardown. -/
theorem terminal_signals_mutually_exclusive_witness :
    ((liveObserver.error 7).2.filter Ev.isHandler = [Ev.onError 7]) ∧
      (liveObserver.error 7).1.complete = ((liveObserver.error 7).1, []) ∧
      ((liveObserver.complete).2.filter Ev.isHandler = [Ev.onComplete]) ∧
      (liveObserver.complete).1.error 7 = ((liveObserver.complete).1, []) :=
  ⟨(terminal_signals_mutually_exclusive liveObserver 7 rfl).1 rfl,
    (terminal_signals_mutually_exclusive liveObserver 7 rfl).2.1,
    (terminal_signals_mutually_exclusive liveObserver 7 rfl).2.2.1 rfl,
    (terminal_signals_mutually_exclusive liveObserver 7 rfl).2.2.2⟩

/-- C5: subscribing to `Observable.from(values)` with `next` and `complete`
handlers delivers `next` for every element in list order, then exactly one
`complete`, and nothing else — in particular no `error` invocation. -/
theorem from_emits_in_order_then_completes (vs : List T) (h : Handlers)
    (hn : h.hasNext = true) (hc : h.hasComplete = true) :
    ((Observable.fromList vs : Observable T E).subscribe h).2 =
      vs.map Ev.onNext ++ [Ev.onComplete] := by
  have h1 : runSigs (Observer.mkNew h : Observer T E) (vs.map Sig.next) =
      (Observer.mkNew h, vs.map Ev.onNext) := runSigs_nexts vs _ hn rfl
  rw [show ((Observable.fromList vs : Observable T E).subscribe h).2 =
        (runSigs (Observer.mkNew h) (vs.map Sig.next ++ [Sig.complete])).2 from rfl,
    runSigs_append, h1]
  simp [runSigs, Observer.signal, Observer.complete, Observer.unsubscribe,
    Observer.mkNew, hc]

/-- Witness for C5 at values `[4, 5, 6]` and the full handler set. -/
theorem from_emits_in_order_then_completes_witness :
    allHandlers.hasNext = true ∧ allHandlers.hasComplete = true ∧
      ((Observable.fromList [4, 5, 6] : Observable Nat Nat).subscribe
        allHandlers).2 = [4, 5, 6].map Ev.onNext ++ [Ev.onComplete] :=
  ⟨rfl, rfl, from_emits_in_order_then_completes [4, 5, 6] allHandlers rfl rfl⟩

/-- C6: subscribing with the empty handler set to any observable performs no
invocation at all (every signal is silently dropped, so there is nothing that
could throw), and the `isUnsubscribed` transition is exactly the one any
other handler set would take: the terminal transition is unaffected. -/
theorem missing_handler_tolerance (obs : Observable T E) (h : Handlers) :
    (obs.subscribe emptyHandlers).2 = [] ∧
      (obs.subscribe emptyHandlers).1.isUnsubscribed =
        (obs.subscribe h).1.isUnsubscribed := by
  constructor
  · exact runSigs_silent obs.emits (Observer.mkNew emptyHandlers) rfl rfl
  · by_cases ht : obs.returnsTeardown <;>
      simp [Observable.subscribe, ht, runSigs_flag, Observer.mkNew]

/-- C7: two `subscribe` calls on one observable are independent: each receives
the full trace the observable delivers to its handler set, the trace of the
second does not depend on the first subscriber's handler set, and
unsubscribing the first subscription leaves the second subscription's
observer untouched. -/
theorem subscription_independence (obs : Observable T E) (h1 h2 h3 : Handlers) :
    (obs.subscribeTwo h1 h2).2.1 = (obs.subscribe h1).2 ∧
      (obs.subscribeTwo h1 h2).2.2 = (obs.subscribe h2).2 ∧
      (obs.subscribeTwo h1 h2).2.2 = (obs.subscribeTwo h3 h2).2.2 ∧
      ((obs.subscribeTwo h1 h2).1.unsub1).1.o2 = (obs.subscribeTwo h1 h2).1.o2 :=
  ⟨rfl, rfl, rfl, rfl⟩

/-- C8: on a live observer, `error` fires exactly the `error` handler (when
present) with the given error value, leaves the observer unsubscribed, and
every later signal sequence is a no-op; on an already unsubscribed observer,
`error` is a complete no-op. -/
theorem error_terminal_semantics (o : Observer T E) (e : E)
    (h : o.isUnsubscribed = false) :
    ((o.error e).2.filter Ev.isHandler =
        (if o.handlers.hasError then [Ev.onError e] else [])) ∧
      (o.error e).1.isUnsubscribed = true ∧
      (∀ sigs : List (Sig T E),
        runSigs (o.error e).1 sigs = ((o.error e).1, [])) ∧
      (∀ o2 : Observer T E, o2.isUnsubscribed = true → o2.error e = (o2, [])) := by
  refine ⟨?_, error_flag o e,
    fun sigs => runSigs_terminated _ sigs (error_flag o e),
    fun o2 h2 => error_terminated o2 e h2⟩
  by_cases he : o.handlers.hasError <;> by_cases ht : o.hasTeardown <;>
    simp [Observer.error, Observer.unsubscribe, Ev.isHandler, h, he, ht]

/-- Witness for C8 at a live observer with all handlers present. -/
theorem error_terminal_semantics_witness :
    ((liveObserver.error 3).2.filter Ev.isHandler = [Ev.onError 3]) ∧
      (liveObserver.error 3).1.isUnsubscribed = true ∧
      runSigs (liveObserver.error 3).1 [Sig.next 9, Sig.complete] =
        ((liveObserver.error 3).1, []) ∧
      (liveObserver.error 3).1.error 3 = ((liveObserver.error 3).1, []) :=
  ⟨(error_terminal_semantics liveObserver 3 rfl).1,
    (error_terminal_semantics liveObserver 3 rfl).2.1,
    (error_terminal_semantics liveObserver 3 rfl).2.2.1 [Sig.next 9, Sig.complete],
    (error_terminal_semantics liveObserver 3 rfl).2.2.2 (liveObserver.error 3).1 rfl⟩

/-- C9: `isUnsubscribed` starts `false` at construction, no operation ever
clears a set flag, and along any run of the four operations the flag flips
from `false` to `true` at most once. -/
theorem flag_monotone_single_flip (h : Handlers) (td : Bool)
    (ops : List (Op T E)) :
    ((⟨h, false, td⟩ : Observer T E).isUnsubscribed = false) ∧
      (∀ (o : Observer T E) (op : Op T E), o.isUnsubscribed = true →
        (o.applyOp op).1.isUnsubscribed = true) ∧
      countFlips (⟨h, false, td⟩ : Observer T E).isUnsubscribed
        (flagTrace (⟨h, false, td⟩ : Observer T E) ops) ≤ 1 :=
  ⟨rfl, fun o op ho => applyOp_flag_mono o op ho, countFlips_false ops _ rfl⟩

/-- Witness for C9 at the full handler set, a registered teardown and a run
exercising all four operations. -/
theorem flag_monotone_single_flip_witness :
    ((⟨allHandlers, false, true⟩ : Observer Nat Nat).isUnsubscribed = false) ∧
      ((⟨allHandlers, true, true⟩ : Observer Nat Nat).applyOp
        (Op.next 1)).1.isUnsubscribed = true ∧
      countFlips (⟨allHandlers, false, true⟩ : Observer Nat Nat).isUnsubscribed
        (flagTrace (⟨allHandlers, false, true⟩ : Observer Nat Nat)
          [Op.next 1, Op.complete, Op.unsub, Op.error 2]) ≤ 1 :=
  ⟨(flag_monotone_single_flip allHandlers true
      [Op.next 1, Op.complete, Op.unsub, Op.error 2]).1,
    (flag_monotone_single_flip allHandlers true
      ([] : List (Op Nat Nat))).2.1 ⟨allHandlers, true, true⟩ (Op.next 1) rfl,
    (flag_monotone_single_flip allHandlers true
      [Op.next 1, Op.complete, Op.unsub, Op.error 2]).2.2⟩

/-- C10: for a `from` observable, the producer's `complete()` runs while the
teardown slot is still unset, so the subscribe call invokes no teardown even
though the observer ends unsubscribed; the teardown is registered only on the
returned handle and runs when the caller later calls `unsubscribe()`. -/
theorem from_teardown_deferred_to_handle_unsubscribe (vs : List T) (h : Handlers) :
    countTeardown ((Observable.fromList vs : Observable T E).subscribe h).2 = 0 ∧
      ((Observable.fromList vs : Observable T E).subscribe h).1.isUnsubscribed = true ∧
      ((Observable.fromList vs : Observable T E).subscribe h).1.hasTeardown = true ∧
      (((Observable.fromList vs : Observable T E).subscribe h).1.unsubscribe).2 =
        [Ev.teardown] := by
  refine ⟨?_, ?_, ?_, ?_⟩
  · have h0 := runSigs_no_teardown (Observable.fromList vs : Observable T E).emits
      (Observer.mkNew h) rfl
    simp [Observable.subscribe, countTeardown, h0]
  · simp [Observable.subscribe, Observable.fromList, runSigs_flag,
      Observer.mkNew, Sig.isTerminal]
  · simp [Observable.subscribe, Observable.fromList]
  · simp [Observer.unsubscribe, Observable.subscribe, Observable.fromList]
